import Mathlib

/-!
Verification of the human-behavior simulation engine of the video-watcher
repository: the delay model, the Bezier motion generator, the action gate,
and the session sequencer (`src/video_watcher/utils.py`,
`src/video_watcher/config.py`, `src/video_watcher/automation.py`,
`src/video_watcher/main.py`).

Modelling conventions:
* Python floats are modelled as rationals (`ℚ`); no floating-point rounding
  is modelled.
* `random.random()` draws are explicit parameters `u : ℚ` with the contract
  `0 ≤ u < 1`; `random.uniform(a, b)` is `a + (b - a) * u`;
  `random.randint(a, b)` is `a + r % (b - a + 1)` for a draw `r : ℕ`.
* Optional Python arguments (default `None`) are `Option` values; the
  Python `x or d` truthiness idiom on floats (where `0.0` is falsy) is `pyOrQ`,
  and on strings (where `""` is falsy) is `pyOrS`.
* `while` loops are fuel-indexed recursive functions returning `Option`;
  `none` means the fuel was exhausted before the loop condition failed
  (the Python loop would still be running), `some` is normal termination.
-/

namespace VideoWatcher

/-- Python `int()` applied to a float: truncation toward zero. -/
def pyInt (q : ℚ) : ℤ :=
  if 0 ≤ q then ⌊q⌋ else ⌈q⌉

/-- The Python idiom `x or d` for a float-valued optional argument `x`:
`None` and `0.0` are falsy, every other float is truthy. -/
def pyOrQ (x : Option ℚ) (d : ℚ) : ℚ :=
  match x with
  | none => d
  | some v => if v = 0 then d else v

/-- The Python idiom `x or d` for a string-valued optional argument `x`:
`None` and `""` are falsy. -/
def pyOrS (x : Option String) (d : String) : String :=
  match x with
  | none => d
  | some v => if v = "" then d else v

/-- `random.uniform(a, b)`: `a + (b - a) * u` for a draw
`u = random.random() ∈ [0, 1)`. -/
def pyUniform (a b u : ℚ) : ℚ :=
  a + (b - a) * u

/-- `random.randint(a, b)` (both endpoints inclusive) for a raw draw `r`. -/
def randint (a b r : ℕ) : ℕ :=
  a + r % (b - a + 1)

/-- The configuration surface of `config.py` relevant to the engine.
Each field holds the value of the class attribute of `Config`. -/
structure Config where
  TARGET_VIDEO_URL : String
  MIN_WATCH_TIME : ℕ
  MAX_WATCH_TIME : ℕ
  MIN_INTERACTION_DELAY : ℚ
  MAX_INTERACTION_DELAY : ℚ
  SCROLL_PROBABILITY : ℚ
  CLICK_PROBABILITY : ℚ
deriving DecidableEq

/-- `config.py` module load: every attribute is `os.getenv(name, default)`
passed through `float` / `int`.  Environment overrides are modelled as
already-parsed optional numbers; an absent variable yields the literal
default from the source.  No attribute is validated, clamped, or rejected
anywhere in `config.py`. -/
def loadConfig (targetUrl : Option String) (minWatch maxWatch : Option ℕ)
    (minDelay maxDelay scrollP clickP : Option ℚ) : Config :=
  { TARGET_VIDEO_URL := targetUrl.getD ""
    MIN_WATCH_TIME := minWatch.getD 30
    MAX_WATCH_TIME := maxWatch.getD 300
    MIN_INTERACTION_DELAY := minDelay.getD (3/2)
    MAX_INTERACTION_DELAY := maxDelay.getD 5
    SCROLL_PROBABILITY := scrollP.getD (3/10)
    CLICK_PROBABILITY := clickP.getD (1/5) }

/-- The configuration obtained with no environment overrides at all. -/
def defaultConfig : Config :=
  loadConfig none none none none none none none

/-- `utils.generate_random_delay(min_delay=None, max_delay=None)`:
`min_delay = min_delay or Config.MIN_INTERACTION_DELAY`,
`max_delay = max_delay or Config.MAX_INTERACTION_DELAY`,
then `random.uniform(min_delay, max_delay)` with draw `u`. -/
def generate_random_delay (cfg : Config) (u : ℚ)
    (min_delay max_delay : Option ℚ) : ℚ :=
  pyUniform (pyOrQ min_delay cfg.MIN_INTERACTION_DELAY)
    (pyOrQ max_delay cfg.MAX_INTERACTION_DELAY) u

/-- `utils.should_perform_action(probability)`:
`random.random() < probability` with draw `u`. -/
def should_perform_action (probability u : ℚ) : Bool :=
  u < probability

/-- An `(x, y)` integer coordinate (Python coordinate tuples). -/
structure Point where
  x : ℤ
  y : ℤ
deriving DecidableEq

/-- The cubic Bezier formula of `utils._generate_bezier_curve` on the
x-coordinates of the four control points, at parameter `t`. -/
def bezierX (p0 p1 p2 p3 : Point) (t : ℚ) : ℚ :=
  (1-t)^3 * p0.x + 3*(1-t)^2 * t * p1.x + 3*(1-t) * t^2 * p2.x + t^3 * p3.x

/-- The cubic Bezier formula on the y-coordinates, at parameter `t`. -/
def bezierY (p0 p1 p2 p3 : Point) (t : ℚ) : ℚ :=
  (1-t)^3 * p0.y + 3*(1-t)^2 * t * p1.y + 3*(1-t) * t^2 * p2.y + t^3 * p3.y

/-- One appended point of `utils._generate_bezier_curve`:
`(int(x), int(y))` at parameter `t`. -/
def bezierPoint (p0 p1 p2 p3 : Point) (t : ℚ) : Point :=
  ⟨pyInt (bezierX p0 p1 p2 p3 t), pyInt (bezierY p0 p1 p2 p3 t)⟩

/-- The loop of `utils._generate_bezier_curve`: `for t in range(steps)`
appends `bezierPoint` at `t = i / steps` in iteration order.  `i` is the
Python loop index, `n` the number of iterations still to run. -/
def bezierFrom (p0 p1 p2 p3 : Point) (steps i : ℕ) : ℕ → List Point
  | 0 => []
  | n + 1 =>
    bezierPoint p0 p1 p2 p3 ((i : ℚ) / (steps : ℚ))
      :: bezierFrom p0 p1 p2 p3 steps (i + 1) n

/-- `utils._generate_bezier_curve(p0, p1, p2, p3, steps)`: the list of
points produced by the whole loop (`steps` iterations from index 0). -/
def generate_bezier_curve (p0 p1 p2 p3 : Point) (steps : ℕ) : List Point :=
  bezierFrom p0 p1 p2 p3 steps 0 steps

/-- `utils.generate_human_like_mouse_movement`: the motion path it feeds to
the action chain.  The two control points are `start` and `end` perturbed
by `random.randint(-100, 100)` jitter on each axis (`j1`, `j2`); the path
is the Bezier curve through them with the given step count (default 25). -/
def generate_mouse_path (start endp j1 j2 : Point) (steps : ℕ) : List Point :=
  generate_bezier_curve start ⟨start.x + j1.x, start.y + j1.y⟩
    ⟨endp.x + j2.x, endp.y + j2.y⟩ endp steps

/-- The outcome of one run of the interaction loop of
`automation.simulate_video_watching`: final `start_time` (the elapsed-time
accumulator), and how many scroll and click actions were performed. -/
structure LoopResult where
  elapsed : ℕ
  scrollsDone : ℕ
  clicksDone : ℕ
deriving DecidableEq

/-- The `while start_time < watch_time` loop of
`automation.simulate_video_watching`, one recursive call per iteration.
Iteration `i` evaluates the scroll gate on draw `scrollDraw i` against
`scrollP`, the click gate on draw `clickDraw i` against `clickP`, samples
`interval = min(randint(5, 15), watch_time - start_time)` from raw draw
`tickDraw i`, and advances `start_time` by `interval`.  `fuel` bounds the
number of iterations; `none` means the loop was still running. -/
def watchLoop (scrollP clickP : ℚ) (scrollDraw clickDraw : ℕ → ℚ)
    (tickDraw : ℕ → ℕ) (watchTime : ℕ) :
    ℕ → ℕ → ℕ → ℕ → ℕ → Option LoopResult
  | 0, startTime, _i, s, c =>
    if startTime < watchTime then none else some ⟨startTime, s, c⟩
  | fuel + 1, startTime, i, s, c =>
    if startTime < watchTime then
      let s' := if should_perform_action scrollP (scrollDraw i) then s + 1 else s
      let c' := if should_perform_action clickP (clickDraw i) then c + 1 else c
      let interval := min (randint 5 15 (tickDraw i)) (watchTime - startTime)
      watchLoop scrollP clickP scrollDraw clickDraw tickDraw watchTime
        fuel (startTime + interval) (i + 1) s' c'
    else some ⟨startTime, s, c⟩

/-- Specialization of `watchLoop` to scroll probability 1 and click
probability 0: the scroll gate fires every tick and the click gate never
does, so the draws drop out (see `watchLoop_det_eq`).  Used to evaluate
the loop on concrete inputs under universally quantified draws. -/
def watchLoopDet (tickDraw : ℕ → ℕ) (watchTime : ℕ) :
    ℕ → ℕ → ℕ → ℕ → ℕ → Option LoopResult
  | 0, startTime, _i, s, c =>
    if startTime < watchTime then none else some ⟨startTime, s, c⟩
  | fuel + 1, startTime, i, s, c =>
    if startTime < watchTime then
      watchLoopDet tickDraw watchTime fuel
        (startTime + min (randint 5 15 (tickDraw i)) (watchTime - startTime))
        (i + 1) (s + 1) c
    else some ⟨startTime, s, c⟩

/-- The prioritized selector list of `automation._find_video_element`. -/
def videoSelectors : List String :=
  ["video", "iframe[src*=\x27youtube\x27]", "iframe[src*=\x27vimeo\x27]",
    "#movie_player"]

/-- `automation._find_video_element`: try each selector in order; the
element lookup of the browser is `lookup : selector → Bool` (`false` models a
`TimeoutException`, on which the loop continues to the next selector).
Returns the first selector that matched, `none` once all are exhausted. -/
def find_video_element (lookup : String → Bool) : Option String :=
  videoSelectors.find? lookup

/-- `automation.simulate_video_watching(url, watch_time)`.  Navigation
failure or an exhausted selector list returns `False` (`some ⟨false, _⟩`
with zeroed loop counters); otherwise `watch_time` is resolved
(`random.randint(MIN_WATCH_TIME, MAX_WATCH_TIME)` from draw `wtDraw` when
the argument is `None`), the interaction loop runs, and the call returns
`True`.  The outer `none` is fuel exhaustion of the loop. -/
def simulate_video_watching (cfg : Config) (navigateOk : Bool)
    (lookup : String → Bool) (scrollDraw clickDraw : ℕ → ℚ)
    (tickDraw : ℕ → ℕ) (wtDraw : ℕ) (watch_time : Option ℕ) (fuel : ℕ) :
    Option (Bool × LoopResult) :=
  if navigateOk = false then some (false, ⟨0, 0, 0⟩)
  else
    match find_video_element lookup with
    | none => some (false, ⟨0, 0, 0⟩)
    | some _ =>
      let watchTime :=
        watch_time.getD (randint cfg.MIN_WATCH_TIME cfg.MAX_WATCH_TIME wtDraw)
      match watchLoop cfg.SCROLL_PROBABILITY cfg.CLICK_PROBABILITY
          scrollDraw clickDraw tickDraw watchTime fuel 0 0 0 0 with
      | none => none
      | some r => some (true, r)

/-- The interaction counters of `VideoWatcher.session_data` in `main.py`. -/
structure Interactions where
  clicks : ℕ
  scrolls : ℕ
  pauses : ℕ
deriving DecidableEq

/-- `VideoWatcher.__init__` sets
the interaction counters of `session_data` to clicks = 0, scrolls = 0, pauses = 0.
No statement in the repository ever writes to these counters afterwards:
`_perform_random_scroll` and `_perform_random_click` in `automation.py` do
not touch `session_data`, and `main.py` only reads it in
`_report_session_completion`. -/
def initialInteractions : Interactions :=
  ⟨0, 0, 0⟩

/-- Telemetry calls made through `SocionatorAPI` in `main.py`:
`send_engagement_event` with type `session_start`, `send_engagement_event`
with type `session_error` and the error message in the metadata, and
`send_watch_session(url, watch_time, interactions, proxy)` (the wall-clock
`watch_time` argument is not modelled). -/
inductive TelemetryEvent where
  | sessionStart (url : String)
  | sessionError (url : String) (error : String)
  | watchSession (url : String) (interactions : Interactions)
deriving DecidableEq

/-- `VideoWatcher.run_session` in `main.py`: resolve the URL as
`args.url or Config.TARGET_VIDEO_URL` (empty string falsy); an empty
resolved URL returns `False` with no telemetry.  Otherwise, when the
Socionator client is configured, a `session_start` event is sent; then
`simulate_video_watching` runs.  On success the completion report carries
the `session_data` interaction counters (still `initialInteractions`); on failure
a `session_error` event with the fixed message `"Simulation failed"` is
sent.  Returns the success flag and the telemetry events in send order. -/
def run_session (cfg : Config) (socionatorEnabled : Bool)
    (argUrl : Option String) (navigateOk : Bool) (lookup : String → Bool)
    (scrollDraw clickDraw : ℕ → ℚ) (tickDraw : ℕ → ℕ) (wtDraw : ℕ)
    (watch_time : Option ℕ) (fuel : ℕ) :
    Option (Bool × List TelemetryEvent) :=
  let url := pyOrS argUrl cfg.TARGET_VIDEO_URL
  if url = "" then some (false, [])
  else
    let startEvents :=
      if socionatorEnabled then [TelemetryEvent.sessionStart url] else []
    match simulate_video_watching cfg navigateOk lookup scrollDraw clickDraw
        tickDraw wtDraw watch_time fuel with
    | none => none
    | some (true, _r) =>
      some (true, startEvents ++
        if socionatorEnabled then
          [TelemetryEvent.watchSession url initialInteractions]
        else [])
    | some (false, _r) =>
      some (false, startEvents ++
        if socionatorEnabled then
          [TelemetryEvent.sessionError url "Simulation failed"]
        else [])

/-! ## Helper lemmas -/

/-- Python `int()` of a float holding an integer value is that integer. -/
theorem pyInt_intCast (n : ℤ) : pyInt (n : ℚ) = n := by
  unfold pyInt
  by_cases h : (0 : ℚ) ≤ (n : ℚ)
  · rw [if_pos h, Int.floor_intCast]
  · rw [if_neg h, Int.ceil_intCast]

/-- At parameter `t = 0` the Bezier formula collapses to the start point. -/
theorem bezierPoint_zero (p0 p1 p2 p3 : Point) :
    bezierPoint p0 p1 p2 p3 0 = p0 := by
  have hx : bezierX p0 p1 p2 p3 0 = (p0.x : ℚ) := by
    unfold bezierX; ring
  have hy : bezierY p0 p1 p2 p3 0 = (p0.y : ℚ) := by
    unfold bezierY; ring
  unfold bezierPoint
  rw [hx, hy, pyInt_intCast, pyInt_intCast]

/-- The Bezier loop produces one point per remaining iteration. -/
theorem bezierFrom_length (p0 p1 p2 p3 : Point) (steps : ℕ) :
    ∀ n i, (bezierFrom p0 p1 p2 p3 steps i n).length = n := by
  intro n
  induction n with
  | zero => intro i; rfl
  | succ n ih =>
    intro i
    simp only [bezierFrom, List.length_cons, ih (i + 1)]

/-- The `k`-th point the Bezier loop produces after index `i` is the Bezier
point at parameter `(i + k) / steps`. -/
theorem bezierFrom_get (p0 p1 p2 p3 : Point) (steps : ℕ) :
    ∀ n i k (hk : k < (bezierFrom p0 p1 p2 p3 steps i n).length),
      (bezierFrom p0 p1 p2 p3 steps i n).get ⟨k, hk⟩ =
        bezierPoint p0 p1 p2 p3 (((i + k : ℕ) : ℚ) / (steps : ℚ)) := by
  intro n
  induction n with
  | zero => intro i k hk; simp [bezierFrom] at hk
  | succ n ih =>
    intro i k hk
    match k with
    | 0 => simp [bezierFrom]
    | k + 1 =>
      have hk' : k < (bezierFrom p0 p1 p2 p3 steps (i + 1) n).length := by
        simpa [bezierFrom] using hk
      have heq : i + (k + 1) = (i + 1) + k := by omega
      simp only [bezierFrom, List.get_cons_succ, ih (i + 1) k hk', heq]

/-- `_generate_bezier_curve` returns exactly `steps` points. -/
theorem generate_bezier_curve_length (p0 p1 p2 p3 : Point) (steps : ℕ) :
    (generate_bezier_curve p0 p1 p2 p3 steps).length = steps :=
  bezierFrom_length p0 p1 p2 p3 steps steps 0

/-- The gate with probability 1 fires on every draw below 1. -/
theorem gate_one (u : ℚ) (h : u < 1) : should_perform_action 1 u = true := by
  simpa [should_perform_action] using h

/-- The gate with probability 0 never fires on a non-negative draw. -/
theorem gate_zero (u : ℚ) (h : 0 ≤ u) : should_perform_action 0 u = false := by
  simpa [should_perform_action] using h

/-- Loop invariant of `watchLoop`: starting at or below the target
duration, a normally terminated loop ends at or below it. -/
theorem watchLoop_elapsed_le (scrollP clickP : ℚ) (sd cd : ℕ → ℚ)
    (td : ℕ → ℕ) (watchTime : ℕ) :
    ∀ fuel startTime i s c r,
      startTime ≤ watchTime →
      watchLoop scrollP clickP sd cd td watchTime fuel startTime i s c =
        some r →
      r.elapsed ≤ watchTime := by
  intro fuel
  induction fuel with
  | zero =>
    intro startTime i s c r hle h
    simp only [watchLoop] at h
    split at h
    · exact absurd h (by simp)
    · cases h; exact hle
  | succ fuel ih =>
    intro startTime i s c r hle h
    simp only [watchLoop] at h
    split at h
    · refine ih _ _ _ _ _ ?_ h
      have : min (randint 5 15 (td i)) (watchTime - startTime) ≤
          watchTime - startTime := Nat.min_le_right _ _
      omega
    · cases h; exact hle

/-- With scroll probability 1, click probability 0, and draws in `[0, 1)`,
the interaction loop behaves like its deterministic specialization. -/
theorem watchLoop_det_eq (sd cd : ℕ → ℚ) (td : ℕ → ℕ) (watchTime : ℕ)
    (hsd : ∀ i, should_perform_action 1 (sd i) = true)
    (hcd : ∀ i, should_perform_action 0 (cd i) = false) :
    ∀ fuel startTime i s c,
      watchLoop 1 0 sd cd td watchTime fuel startTime i s c =
        watchLoopDet td watchTime fuel startTime i s c := by
  intro fuel
  induction fuel with
  | zero => intro startTime i s c; rfl
  | succ fuel ih =>
    intro startTime i s c
    simp only [watchLoop, watchLoopDet, hsd i, hcd i, if_true, if_false]
    split
    · exact ih _ _ _ _
    · rfl

/-! ## Claim theorems -/

/-- C9: the action gate fires iff the uniform draw is strictly below the
probability; with probability 0 it never fires (draws are non-negative),
with probability 1 it always fires (draws are below 1). -/
theorem C9_gate_iff (p u : ℚ) (hu0 : 0 ≤ u) (hu1 : u < 1) :
    (should_perform_action p u = true ↔ u < p) ∧
    should_perform_action 0 u = false ∧
    should_perform_action 1 u = true := by
  refine ⟨?_, gate_zero u hu0, gate_one u hu1⟩
  simp [should_perform_action]

/-- Witness for C9 at `p = 1/3`, `u = 1/2`. -/
theorem C9_gate_iff_witness :
    (0 : ℚ) ≤ 1/2 ∧ (1/2 : ℚ) < 1 ∧
    ((should_perform_action (1/3) (1/2) = true ↔ (1/2 : ℚ) < 1/3) ∧
      should_perform_action 0 (1/2) = false ∧
      should_perform_action 1 (1/2) = true) :=
  ⟨by norm_num, by norm_num,
    C9_gate_iff (1/3) (1/2) (by norm_num) (by norm_num)⟩

/-- C10: an explicit `0` bound passed to `generate_random_delay` is falsy
under Python `or` and is silently replaced by the configured default, for
the lower and the upper bound alike; concretely, under the default
configuration a call requesting the range `[0, 0]` samples `13/4`, outside
the caller-requested range. -/
theorem C10_zero_bound_replaced :
    (∀ cfg : Config, ∀ u : ℚ, ∀ maxd : Option ℚ,
      generate_random_delay cfg u (some 0) maxd =
        generate_random_delay cfg u none maxd) ∧
    (∀ cfg : Config, ∀ u : ℚ, ∀ mind : Option ℚ,
      generate_random_delay cfg u mind (some 0) =
        generate_random_delay cfg u mind none) ∧
    generate_random_delay defaultConfig (1/2) (some 0) (some 0) = 13/4 ∧
    ¬ (13/4 : ℚ) ≤ 0 := by
  refine ⟨?_, ?_, ?_, by norm_num⟩
  · intro cfg u maxd
    simp [generate_random_delay, pyOrQ]
  · intro cfg u mind
    simp [generate_random_delay, pyOrQ]
  · norm_num [generate_random_delay, defaultConfig, loadConfig, pyOrQ,
      pyUniform]

/-- C7 as stated is false: the range `[0, 1]` satisfies `0 ≤ min ≤ max`,
yet with draw `u = 0` the sampler returns `3/2 > 1`, because the explicit
`min = 0` is falsy and is replaced by the default lower bound `3/2`. -/
theorem C7_counterexample :
    (0 : ℚ) ≤ 0 ∧ (0 : ℚ) ≤ 1 ∧ (0 : ℚ) ≤ 0 ∧ (0 : ℚ) < 1 ∧
    generate_random_delay defaultConfig 0 (some 0) (some 1) = 3/2 ∧
    ¬ generate_random_delay defaultConfig 0 (some 0) (some 1) ≤ 1 := by
  norm_num [generate_random_delay, defaultConfig, loadConfig, pyOrQ,
    pyUniform]

/-- C7 amended: for a delay range with strictly positive `min ≤ max` and a
draw `u ∈ [0, 1)`, the sampled delay lies within `[min, max]`. -/
theorem C7_delay_in_range (cfg : Config) (m M u : ℚ) (hm : 0 < m)
    (hmM : m ≤ M) (hu0 : 0 ≤ u) (hu1 : u < 1) :
    m ≤ generate_random_delay cfg u (some m) (some M) ∧
    generate_random_delay cfg u (some m) (some M) ≤ M := by
  have hm0 : m ≠ 0 := ne_of_gt hm
  have hM0 : M ≠ 0 := ne_of_gt (lt_of_lt_of_le hm hmM)
  simp only [generate_random_delay, pyOrQ, pyUniform, if_neg hm0, if_neg hM0]
  constructor
  · nlinarith
  · nlinarith

/-- Witness for C7 amended at range `[1, 2]`, draw `u = 1/2`. -/
theorem C7_delay_in_range_witness :
    (0 : ℚ) < 1 ∧ (1 : ℚ) ≤ 2 ∧ (0 : ℚ) ≤ 1/2 ∧ (1/2 : ℚ) < 1 ∧
    (1 ≤ generate_random_delay defaultConfig (1/2) (some 1) (some 2) ∧
      generate_random_delay defaultConfig (1/2) (some 1) (some 2) ≤ 2) :=
  ⟨by norm_num, by norm_num, by norm_num, by norm_num,
    C7_delay_in_range defaultConfig 1 2 (1/2) (by norm_num) (by norm_num)
      (by norm_num) (by norm_num)⟩

/-- C3 as stated is false: a configuration whose scroll probability is
`3/2 ∉ [0, 1]` loads without any error and the value is stored and used
as-is, and a delay range with `min = 3 > 2 = max` is sampled without any
error (`config.py` and `generate_random_delay` contain no validation and
no `ConfigurationError`). -/
theorem C3_counterexample :
    (1 : ℚ) < 3/2 ∧
    (loadConfig none none none none none (some (3/2)) none).SCROLL_PROBABILITY
      = 3/2 ∧
    (2 : ℚ) < 3 ∧
    generate_random_delay defaultConfig (1/2) (some 3) (some 2) = 5/2 := by
  refine ⟨by norm_num, rfl, by norm_num, ?_⟩
  norm_num [generate_random_delay, defaultConfig, loadConfig, pyOrQ,
    pyUniform]

/-- C3 amended: configuration loading performs no validation whatsoever —
any probability value (in range or not) is stored as-is — and a delay
range with `min > max > 0` is not rejected either: the sampler simply
draws from the inverted interval `[max, min]`. -/
theorem C3_no_validation (cfg : Config) (p m M u : ℚ) (hM : 0 < M)
    (hMm : M < m) (hu0 : 0 ≤ u) (hu1 : u ≤ 1) :
    (loadConfig none none none none none (some p) none).SCROLL_PROBABILITY
      = p ∧
    M ≤ generate_random_delay cfg u (some m) (some M) ∧
    generate_random_delay cfg u (some m) (some M) ≤ m := by
  have hm0 : m ≠ 0 := ne_of_gt (lt_trans hM hMm)
  have hM0 : M ≠ 0 := ne_of_gt hM
  refine ⟨rfl, ?_⟩
  simp only [generate_random_delay, pyOrQ, pyUniform, if_neg hm0, if_neg hM0]
  constructor
  · nlinarith
  · nlinarith

/-- Witness for C3 amended at `p = 3/2`, inverted range `min = 3 > max = 2`,
draw `u = 1/2`. -/
theorem C3_no_validation_witness :
    (0 : ℚ) < 2 ∧ (2 : ℚ) < 3 ∧ (0 : ℚ) ≤ 1/2 ∧ (1/2 : ℚ) ≤ 1 ∧
    ((loadConfig none none none none none (some (3/2))
        none).SCROLL_PROBABILITY = 3/2 ∧
      2 ≤ generate_random_delay defaultConfig (1/2) (some 3) (some 2) ∧
      generate_random_delay defaultConfig (1/2) (some 3) (some 2) ≤ 3) :=
  ⟨by norm_num, by norm_num, by norm_num, by norm_num,
    C3_no_validation defaultConfig (3/2) 3 2 (1/2) (by norm_num)
      (by norm_num) (by norm_num) (by norm_num)⟩

/-- C6: the motion generator returns exactly `steps` points, and the empty
sequence for `steps = 0`. -/
theorem C6_path_length (p0 p1 p2 p3 : Point) (steps : ℕ) :
    (generate_bezier_curve p0 p1 p2 p3 steps).length = steps ∧
    generate_bezier_curve p0 p1 p2 p3 0 = [] :=
  ⟨generate_bezier_curve_length p0 p1 p2 p3 steps, rfl⟩

/-- C5: for `i < steps`, the `i`-th generated point is the (truncated)
Bezier evaluation at exactly `t = i / steps`, and this parameter value is
always strictly below 1 — the parameter never reaches 1, so the final
point is the evaluation at `t = (steps - 1) / steps`, not at `t = 1`. -/
theorem C5_parameter_values (p0 p1 p2 p3 : Point) (steps i : ℕ)
    (hi : i < steps) :
    (generate_bezier_curve p0 p1 p2 p3 steps).get
        ⟨i, by rw [generate_bezier_curve_length]; exact hi⟩ =
      bezierPoint p0 p1 p2 p3 ((i : ℚ) / (steps : ℚ)) ∧
    (i : ℚ) / (steps : ℚ) < 1 := by
  constructor
  · have hk : i < (bezierFrom p0 p1 p2 p3 steps 0 steps).length := by
      rw [bezierFrom_length]; exact hi
    have h := bezierFrom_get p0 p1 p2 p3 steps steps 0 i hk
    simpa [generate_bezier_curve] using h
  · have hs : (0 : ℚ) < (steps : ℚ) := by
      exact_mod_cast lt_of_le_of_lt (Nat.zero_le i) hi
    rw [div_lt_one hs]
    exact_mod_cast hi

/-- Witness for C5 at `steps = 2`, `i = 1`. -/
theorem C5_parameter_values_witness :
    1 < 2 ∧
    ((generate_bezier_curve ⟨0, 0⟩ ⟨0, 0⟩ ⟨10, 10⟩ ⟨10, 10⟩ 2).get
        ⟨1, by rw [generate_bezier_curve_length]; omega⟩ =
      bezierPoint ⟨0, 0⟩ ⟨0, 0⟩ ⟨10, 10⟩ ⟨10, 10⟩ ((1 : ℚ) / (2 : ℚ)) ∧
      ((1 : ℕ) : ℚ) / ((2 : ℕ) : ℚ) < 1) :=
  ⟨by norm_num, C5_parameter_values ⟨0, 0⟩ ⟨0, 0⟩ ⟨10, 10⟩ ⟨10, 10⟩ 2 1
    (by norm_num)⟩

/-- C4 as stated is false: with start `(0,0)`, end `(10,10)`, zero jitter
on both control points and `steps = 2 > 0`, the path is
`[(0,0), (5,5)]` — its last point `(5,5)` is not the end point. -/
theorem C4_counterexample :
    0 < 2 ∧
    generate_mouse_path ⟨0, 0⟩ ⟨10, 10⟩ ⟨0, 0⟩ ⟨0, 0⟩ 2 =
      [⟨0, 0⟩, ⟨5, 5⟩] ∧
    (generate_mouse_path ⟨0, 0⟩ ⟨10, 10⟩ ⟨0, 0⟩ ⟨0, 0⟩ 2).getLast? ≠
      some ⟨10, 10⟩ := by
  have ht0 : (((0 : ℕ) : ℚ) / ((2 : ℕ) : ℚ)) = 0 := by norm_num
  have ht1 : (((1 : ℕ) : ℚ) / ((2 : ℕ) : ℚ)) = 1/2 := by norm_num
  have hx : bezierX ⟨0, 0⟩ ⟨0, 0⟩ ⟨10, 10⟩ ⟨10, 10⟩ (1/2) = ((5 : ℤ) : ℚ) := by
    norm_num [bezierX]
  have hy : bezierY ⟨0, 0⟩ ⟨0, 0⟩ ⟨10, 10⟩ ⟨10, 10⟩ (1/2) = ((5 : ℤ) : ℚ) := by
    norm_num [bezierY]
  have hp1 : bezierPoint ⟨0, 0⟩ ⟨0, 0⟩ ⟨10, 10⟩ ⟨10, 10⟩
      (((1 : ℕ) : ℚ) / ((2 : ℕ) : ℚ)) = ⟨5, 5⟩ := by
    unfold bezierPoint
    rw [ht1, hx, hy, pyInt_intCast]
  have hlist : generate_mouse_path ⟨0, 0⟩ ⟨10, 10⟩ ⟨0, 0⟩ ⟨0, 0⟩ 2 =
      [bezierPoint ⟨0, 0⟩ ⟨0, 0⟩ ⟨10, 10⟩ ⟨10, 10⟩
          (((0 : ℕ) : ℚ) / ((2 : ℕ) : ℚ)),
        bezierPoint ⟨0, 0⟩ ⟨0, 0⟩ ⟨10, 10⟩ ⟨10, 10⟩
          (((1 : ℕ) : ℚ) / ((2 : ℕ) : ℚ))] := rfl
  have hfull : generate_mouse_path ⟨0, 0⟩ ⟨10, 10⟩ ⟨0, 0⟩ ⟨0, 0⟩ 2 =
      [⟨0, 0⟩, ⟨5, 5⟩] := by
    rw [hlist, hp1, ht0, bezierPoint_zero]
  refine ⟨by norm_num, hfull, ?_⟩
  rw [hfull]
  decide

/-- C4 amended: for every start, end, jitter and `steps > 0`, the first
point of the generated motion path equals the caller-supplied start point
(the Bezier formula at `t = 0` collapses to `start`); the last point is
the evaluation at `t = (steps - 1) / steps` and need not equal the end
point. -/
theorem C4_path_starts_at_start (start endp j1 j2 : Point) (steps : ℕ)
    (h : 0 < steps) :
    (generate_mouse_path start endp j1 j2 steps).head? = some start := by
  obtain ⟨n, rfl⟩ : ∃ n, steps = n + 1 := ⟨steps - 1, by omega⟩
  simp only [generate_mouse_path, generate_bezier_curve, bezierFrom,
    List.head?_cons]
  norm_num [bezierPoint_zero]

/-- Witness for C4 amended at `steps = 3` with non-zero jitter. -/
theorem C4_path_starts_at_start_witness :
    0 < 3 ∧
    (generate_mouse_path ⟨1, 2⟩ ⟨30, 40⟩ ⟨5, -6⟩ ⟨-7, 8⟩ 3).head? =
      some ⟨1, 2⟩ :=
  ⟨by norm_num, C4_path_starts_at_start ⟨1, 2⟩ ⟨30, 40⟩ ⟨5, -6⟩ ⟨-7, 8⟩ 3
    (by norm_num)⟩

/-- C8: every normally terminated run of the interaction loop ends with an
elapsed time of at most the requested watch duration (each tick advances
the elapsed time by `min(sampled tick, remaining)`), and every sampled
tick interval `randint(5, 15)` lies in `[5, 15]`. -/
theorem C8_elapsed_bound (scrollP clickP : ℚ) (sd cd : ℕ → ℚ) (td : ℕ → ℕ)
    (watchTime fuel : ℕ) (r : LoopResult)
    (h : watchLoop scrollP clickP sd cd td watchTime fuel 0 0 0 0 = some r) :
    r.elapsed ≤ watchTime ∧
    (∀ i, 5 ≤ randint 5 15 (td i) ∧ randint 5 15 (td i) ≤ 15) ∧
    ∀ fuel' st i s c, st < watchTime →
      watchLoop scrollP clickP sd cd td watchTime (fuel' + 1) st i s c =
        watchLoop scrollP clickP sd cd td watchTime fuel'
          (st + min (randint 5 15 (td i)) (watchTime - st)) (i + 1)
          (if should_perform_action scrollP (sd i) then s + 1 else s)
          (if should_perform_action clickP (cd i) then c + 1 else c) := by
  refine ⟨watchLoop_elapsed_le scrollP clickP sd cd td watchTime fuel 0 0 0 0
    r (Nat.zero_le _) h, ?_, ?_⟩
  · intro i
    unfold randint
    omega
  · intro fuel' st i s c hst
    simp only [watchLoop, if_pos hst]

/-- Witness for C8: a 7-second session with fixed 5-second raw tick draws
terminates normally at elapsed time exactly 7. -/
theorem C8_elapsed_bound_witness :
    watchLoop 0 0 (fun _ => 0) (fun _ => 0) (fun _ => 0) 7 2 0 0 0 0 =
      some ⟨7, 0, 0⟩ ∧
    ((⟨7, 0, 0⟩ : LoopResult).elapsed ≤ 7 ∧
      (∀ i, 5 ≤ randint 5 15 ((fun _ : ℕ => 0) i) ∧
        randint 5 15 ((fun _ : ℕ => 0) i) ≤ 15) ∧
      ∀ fuel' st i s c, st < 7 →
        watchLoop 0 0 (fun _ => 0) (fun _ => 0) (fun _ => 0) 7 (fuel' + 1)
            st i s c =
          watchLoop 0 0 (fun _ => 0) (fun _ => 0) (fun _ => 0) 7 fuel'
            (st + min (randint 5 15 ((fun _ : ℕ => 0) i)) (7 - st)) (i + 1)
            (if should_perform_action 0 ((fun _ : ℕ => (0 : ℚ)) i) then s + 1
              else s)
            (if should_perform_action 0 ((fun _ : ℕ => (0 : ℚ)) i) then c + 1
              else c)) :=
  ⟨by decide, C8_elapsed_bound 0 0 (fun _ => 0) (fun _ => 0) (fun _ => 0) 7 2
    ⟨7, 0, 0⟩ (by decide)⟩

/-- C1 (code bug): in the scenario of the claim — scroll probability 1,
click probability 0, explicit 20-second watch time, every sampled tick
interval 5 seconds — the interaction loop performs exactly 4 scroll
actions and 0 click actions, but the interaction counters that
`run_session` reports in the completion telemetry are the untouched
initial counters: 0 scrolls and 0 clicks.  No code in the repository ever
increments `session_data` interaction counters. -/
theorem C1_counters_never_updated (sd cd : ℕ → ℚ)
    (hsd : ∀ i, 0 ≤ sd i ∧ sd i < 1) (hcd : ∀ i, 0 ≤ cd i) :
    simulate_video_watching
        (loadConfig none none none none none (some 1) (some 0)) true
        (fun s => s == "video") sd cd (fun _ => 0) 0 (some 20) 5 =
      some (true, ⟨20, 4, 0⟩) ∧
    run_session (loadConfig none none none none none (some 1) (some 0)) true
        (some "https://example.com/v1") true (fun s => s == "video") sd cd
        (fun _ => 0) 0 (some 20) 5 =
      some (true, [TelemetryEvent.sessionStart "https://example.com/v1",
        TelemetryEvent.watchSession "https://example.com/v1"
          initialInteractions]) ∧
    initialInteractions.scrolls = 0 ∧ initialInteractions.clicks = 0 := by
  have g1 : ∀ i, should_perform_action 1 (sd i) = true :=
    fun i => gate_one _ (hsd i).2
  have g0 : ∀ i, should_perform_action 0 (cd i) = false :=
    fun i => gate_zero _ (hcd i)
  have hloop : watchLoop 1 0 sd cd (fun _ => 0) 20 5 0 0 0 0 =
      some ⟨20, 4, 0⟩ := by
    rw [watchLoop_det_eq sd cd (fun _ => 0) 20 g1 g0]
    decide
  have hS : (loadConfig none none none none none (some 1)
      (some 0)).SCROLL_PROBABILITY = 1 := rfl
  have hC : (loadConfig none none none none none (some 1)
      (some 0)).CLICK_PROBABILITY = 0 := rfl
  have hfind : find_video_element (fun s => s == "video") = some "video" :=
    rfl
  have hsim : simulate_video_watching
      (loadConfig none none none none none (some 1) (some 0)) true
      (fun s => s == "video") sd cd (fun _ => 0) 0 (some 20) 5 =
      some (true, ⟨20, 4, 0⟩) := by
    simp only [simulate_video_watching, hfind, hS, hC, Option.getD_some]
    simp [hloop]
  refine ⟨hsim, ?_, rfl, rfl⟩
  simp [run_session, pyOrS, hsim]

/-- Witness for C1 with all uniform draws fixed to `1/2`. -/
theorem C1_counters_never_updated_witness :
    (∀ i, 0 ≤ (fun _ : ℕ => (1/2 : ℚ)) i ∧ (fun _ : ℕ => (1/2 : ℚ)) i < 1) ∧
    (∀ i, 0 ≤ (fun _ : ℕ => (1/2 : ℚ)) i) ∧
    (simulate_video_watching
        (loadConfig none none none none none (some 1) (some 0)) true
        (fun s => s == "video") (fun _ => (1/2 : ℚ)) (fun _ => (1/2 : ℚ))
        (fun _ => 0) 0 (some 20) 5 =
      some (true, ⟨20, 4, 0⟩) ∧
    run_session (loadConfig none none none none none (some 1) (some 0)) true
        (some "https://example.com/v1") true (fun s => s == "video")
        (fun _ => (1/2 : ℚ)) (fun _ => (1/2 : ℚ))
        (fun _ => 0) 0 (some 20) 5 =
      some (true, [TelemetryEvent.sessionStart "https://example.com/v1",
        TelemetryEvent.watchSession "https://example.com/v1"
          initialInteractions]) ∧
    initialInteractions.scrolls = 0 ∧ initialInteractions.clicks = 0) :=
  ⟨fun _ => ⟨by norm_num, by norm_num⟩, fun _ => by norm_num,
    C1_counters_never_updated (fun _ => (1/2 : ℚ)) (fun _ => (1/2 : ℚ))
      (fun _ => ⟨by norm_num, by norm_num⟩) (fun _ => by norm_num)⟩

/-- C2 as stated is false: with a browser whose element lookup times out
for every selector, `run_session` does return an unsuccessful result and
send a `session_error` event, but the reason it carries is the fixed
string `"Simulation failed"`, not `"video_not_found"`. -/
theorem C2_counterexample :
    run_session defaultConfig true (some "https://example.com/v1") true
        (fun _ => false) (fun _ => 0) (fun _ => 0) (fun _ => 0) 0 none 0 =
      some (false, [TelemetryEvent.sessionStart "https://example.com/v1",
        TelemetryEvent.sessionError "https://example.com/v1"
          "Simulation failed"]) ∧
    "Simulation failed" ≠ "video_not_found" := by
  exact ⟨rfl, by decide⟩

/-- C2 amended: for every session whose element lookup times out for all
selectors (navigation having succeeded, telemetry enabled, non-empty
resolved URL), `run_session` returns an unsuccessful result and sends a
`session_error` telemetry event carrying the generic reason
`"Simulation failed"`; the specific reason `"video_not_found"` is never
produced. -/
theorem C2_generic_failure_reason (cfg : Config) (argUrl : Option String)
    (lookup : String → Bool) (sd cd : ℕ → ℚ) (td : ℕ → ℕ) (wtDraw : ℕ)
    (watch_time : Option ℕ) (fuel : ℕ)
    (hurl : pyOrS argUrl cfg.TARGET_VIDEO_URL ≠ "")
    (hlk : ∀ s, lookup s = false) :
    run_session cfg true argUrl true lookup sd cd td wtDraw watch_time
        fuel =
      some (false,
        [TelemetryEvent.sessionStart (pyOrS argUrl cfg.TARGET_VIDEO_URL),
          TelemetryEvent.sessionError (pyOrS argUrl cfg.TARGET_VIDEO_URL)
            "Simulation failed"]) := by
  have hfind : find_video_element lookup = none := by
    simp [find_video_element, videoSelectors, hlk]
  simp [run_session, simulate_video_watching, hfind, hurl]

/-- Witness for C2 amended at a concrete URL and an always-failing
lookup. -/
theorem C2_generic_failure_reason_witness :
    pyOrS (some "https://example.com/v2") defaultConfig.TARGET_VIDEO_URL ≠
      "" ∧
    (∀ s : String, (fun _ : String => false) s = false) ∧
    run_session defaultConfig true (some "https://example.com/v2") true
        (fun _ => false) (fun _ => 0) (fun _ => 0) (fun _ => 0) 0 none 3 =
      some (false,
        [TelemetryEvent.sessionStart
            (pyOrS (some "https://example.com/v2")
              defaultConfig.TARGET_VIDEO_URL),
          TelemetryEvent.sessionError
            (pyOrS (some "https://example.com/v2")
              defaultConfig.TARGET_VIDEO_URL)
            "Simulation failed"]) :=
  ⟨by decide, fun _ => rfl,
    C2_generic_failure_reason defaultConfig (some "https://example.com/v2")
      (fun _ => false) (fun _ => 0) (fun _ => 0) (fun _ => 0) 0 none 3
      (by decide) (fun _ => rfl)⟩

end VideoWatcher
